import Mathlib

/-!
# Verification of the E3 garbage-collection core (`eCore/Include/Memory/GarbageCollection.h`)

Shallow embedding of the reference-counted handle triplet (`GCUniquePtr`,
`GCThisPtr`, `GCWeakPtr`), the shared `GCCounter` record and the
`GCConcreteFactory` live-list bookkeeping.

Modelling choices:
* Counter records live in a heap `counters : List (Option GCCounter)`;
  the index is the record's address, `none` marks a freed record.
  A handle (`GCUniquePtr`, `GCWeakPtr`, …) is its `mpCounter` field:
  `Option Nat` — `none` is a null counter pointer.
* Object pointers (`T*`) are addresses `Option Nat`; `none` is `nullptr`.
* The reference count `A32` is an atomic integer; modelled as `Int`
  (so decrementing a zero count does not reach zero, as in the code).
* The single `IGarbageCollector` in scope is the `GCConcreteFactory`
  itself; `pCollector` records whether the counter carries it
  (`GCThisPtr` counters carry no collector).
* The factory's `Destroy` frees the object through the allocator; the
  model records each call in `destroyLog`.  Each `Collect` invocation is
  recorded in `collectLog`.  `allocCalls` counts allocator requests made
  by `Create`.  `E_ASSERT_ALWAYS` (active in all builds) sets
  `assertFailed`; the debug-only `E_ASSERT` family has no release effect
  and is not modelled.
* Mutex acquisition (`Threads::Lock`) serialises the critical sections;
  the sequential model executes them atomically, so locks are no-ops.
-/

/-- Record `GCCounter`: reference count, object pointer, collector back-reference
(`pCollector = true` iff the counter holds the factory as collector). -/
structure GCCounter where
  count : Int
  ptr : Option Nat
  pCollector : Bool
deriving Repr, DecidableEq

/-- Global state: the counter heap, plus the `GCConcreteFactory` fields
`mLiveList` (a list of `GCUniquePtr` values, i.e. counter addresses) and
`mCleaningUp`, plus observation logs. -/
structure GCState where
  counters : List (Option GCCounter)
  liveList : List (Option Nat)
  cleaningUp : Bool
  collectLog : List Nat
  destroyLog : List (Option Nat)
  allocCalls : Nat
  assertFailed : Bool
deriving Repr, DecidableEq

/-- A fresh `GCConcreteFactory` with an empty heap. -/
def GCState.init : GCState :=
  { counters := [], liveList := [], cleaningUp := false,
    collectLog := [], destroyLog := [], allocCalls := 0, assertFailed := false }

/-- Dereference a counter address: `some c` when the record is allocated. -/
def counterAt (s : GCState) (r : Nat) : Option GCCounter :=
  (s.counters.get? r).join

/-- Overwrite the record at address `r` (`none` frees it). -/
def setCounter (s : GCState) (r : Nat) (c : Option GCCounter) : GCState :=
  { s with counters := s.counters.set r c }

/-- The object pointer stored in the record at `r` (`none` when the record
is freed; reading a freed record is undefined behaviour in C++, the model
returns the null pointer). -/
def ptrAt (s : GCState) (r : Nat) : Option Nat :=
  match counterAt s r with
  | some c => c.ptr
  | none => none

/-- Accessor `GCWeakPtr::GetCount`: `(mpCounter == nullptr) ? 0 : mpCounter->count`. -/
def getCount (s : GCState) (h : Option Nat) : Int :=
  match h with
  | none => 0
  | some r =>
    match counterAt s r with
    | some c => c.count
    | none => 0

/-- Accessor `GCWeakPtr::GetPtr`: `(mpCounter == nullptr) ? nullptr : mpCounter->ptr`. -/
def getPtr (s : GCState) (h : Option Nat) : Option Nat :=
  match h with
  | none => none
  | some r => ptrAt s r

/-- Operator `GCUniquePtr::operator==(const GCUniquePtr&)`:
`mpCounter == other.mpCounter ? mpCounter->ptr == other.mpCounter->ptr : false`.
When both counter pointers are null the true branch dereferences a null
pointer: undefined behaviour, modelled as `none`. -/
def uniqueEq (s : GCState) (a b : Option Nat) : Option Bool :=
  if a = b then
    match a with
    | none => none
    | some r => some (ptrAt s r == ptrAt s r)
  else some false

/-- Operator `GCUniquePtr::operator==(const T*)`:
`mpCounter == nullptr ? ptr == nullptr : mpCounter->ptr == ptr`. -/
def uniqueEqRaw (s : GCState) (h : Option Nat) (p : Option Nat) : Bool :=
  match h with
  | none => p.isNone
  | some r => ptrAt s r == p

/-- Operator `GCWeakPtr::operator==(const GCWeakPtr&)`: same counter → true; a null
counter compares equal to a counter whose object pointer is null; two
distinct non-null counters compare unequal. -/
def weakEq (s : GCState) (a b : Option Nat) : Bool :=
  if a = b then true
  else
    match a, b with
    | none, some rb => (ptrAt s rb).isNone
    | some ra, none => (ptrAt s ra).isNone
    | some _, some _ => false
    | none, none => true

/-- Method `GCUniquePtr::Swap`: exchange the two handles' counter pointers.
Returns (this', other'). -/
def uniqueSwap (a b : Option Nat) : Option Nat × Option Nat := (b, a)

/-- Constructor `GCUniquePtr(const GCUniquePtr& other)`: member-initialise `mpCounter`
to null, then `Swap(other)`.  Returns (new handle, source afterwards). -/
def uniqueCopyCtor (src : Option Nat) : Option Nat × Option Nat :=
  let p := uniqueSwap none src
  (p.1, p.2)

/-- Operator `GCUniquePtr::operator=(const GCUniquePtr& other)`: `Swap(other)`.
Returns (destination afterwards, source afterwards). -/
def uniqueAssign (dst src : Option Nat) : Option Nat × Option Nat :=
  let p := uniqueSwap dst src
  (p.1, p.2)

/-- Constructor `GCUniquePtr(T* ptr, IGarbageCollector* pCollector)`: allocate a fresh
counter (`E_NEW(Counter)`, zero count) holding the object pointer and the
collector (here: the factory).  `E_ASSERT_PTR(ptr)` is debug-only. -/
def uniqueMk (s : GCState) (p : Option Nat) : GCState × Option Nat :=
  let r := s.counters.length
  ({ s with counters := s.counters ++ [some ⟨0, p, true⟩] }, some r)

/-- Constructor `GCThisPtr(T* ptr)`: allocate a fresh counter with no collector. -/
def thisMk (s : GCState) (p : Option Nat) : GCState × Option Nat :=
  let r := s.counters.length
  ({ s with counters := s.counters ++ [some ⟨0, p, false⟩] }, some r)

/-- Method `GCConcreteFactory::Destroy(T* ptr)`: deallocate through the allocator
(`E_DELETE`), recorded in `destroyLog`.  `E_ASSERT(ptr)` is debug-only. -/
def factoryDestroy (s : GCState) (p : Option Nat) : GCState :=
  { s with destroyLog := s.destroyLog ++ [p] }

/-- Method `GCUniquePtr::Reset`: if a counter is held, call
`pCollector->Destroy(ptr)` (a `GCUniquePtr` counter always carries the
factory as collector), then free the counter when its count is zero and
otherwise null only its object pointer; the handle ends null. -/
def uniqueReset (s : GCState) (h : Option Nat) : GCState × Option Nat :=
  match h with
  | none => (s, none)
  | some r =>
    match counterAt s r with
    | some c =>
      let s := factoryDestroy s c.ptr
      if c.count = 0 then (setCounter s r none, none)
      else (setCounter s r (some { c with ptr := none }), none)
    | none => (s, none)

/-- Attach of `GCWeakPtr` (copy constructor, and the constructors from
`GCUniquePtr` / `GCThisPtr`): take over the source's counter pointer and,
when non-null, increment its count.  The cross-type `SafeCast` assert is
debug-only. -/
def weakAttach (s : GCState) (src : Option Nat) : GCState × Option Nat :=
  match src with
  | none => (s, none)
  | some r =>
    match counterAt s r with
    | some c => (setCounter s r (some { c with count := c.count + 1 }), some r)
    | none => (s, some r)

/-- The scan loop in `GCConcreteFactory::Collect`: first index whose
`GCUniquePtr` entry compares equal (via `operator==(const T*)`) to the
collected pointer. -/
def findLiveIdx (s : GCState) (p : Nat) : List (Option Nat) → Option Nat
  | [] => none
  | e :: rest =>
    if uniqueEqRaw s e (some p) then some 0
    else (findLiveIdx s p rest).map (· + 1)

/-- Modelled from the spec: `Containers::List::RemoveFast` (the container
implementation is not part of the reviewed sources) removes the entry at
the given index; the order of the remaining entries is unspecified, so the
model erases positionally. -/
def removeFastAt (l : List (Option Nat)) (i : Nat) : List (Option Nat) :=
  l.eraseIdx i

/-- Method `GCConcreteFactory::Collect(T* ptr)`: under the live-list lock; during
`CleanUp` return immediately; otherwise remove the matching live-list
entry (destroying its `GCUniquePtr`, i.e. resetting it); if no entry
matches, `E_ASSERT_ALWAYS` fires. -/
def factoryCollect (s : GCState) (p : Nat) : GCState :=
  let s := { s with collectLog := s.collectLog ++ [p] }
  if s.cleaningUp then s
  else
    match findLiveIdx s p s.liveList with
    | some i =>
      let e := (s.liveList.get? i).join
      let s := (uniqueReset s e).1
      { s with liveList := removeFastAt s.liveList i }
    | none => { s with assertFailed := true }

/-- Method `GCWeakPtr::Reset`: decrement the count; when it reaches zero, free the
counter if the object pointer is already null, else notify the collector
(`Collect`) when one is present; the handle ends null. -/
def weakReset (s : GCState) (h : Option Nat) : GCState × Option Nat :=
  match h with
  | none => (s, none)
  | some r =>
    match counterAt s r with
    | some c =>
      let c' : GCCounter := { c with count := c.count - 1 }
      let s := setCounter s r (some c')
      if c'.count = 0 then
        match c'.ptr with
        | none => (setCounter s r none, none)
        | some p =>
          if c'.pCollector then (factoryCollect s p, none)
          else (s, none)
      else (s, none)
    | none => (s, none)

/-- Destructor `GCThisPtr::~GCThisPtr`: free the counter when no observer remains,
otherwise null only its object pointer. -/
def thisDtor (s : GCState) (h : Option Nat) : GCState :=
  match h with
  | none => s
  | some r =>
    match counterAt s r with
    | some c =>
      if c.count = 0 then setCounter s r none
      else setCounter s r (some { c with ptr := none })
    | none => s

/-- Accessor `GCConcreteFactory::GetLiveCount`. -/
def getLiveCount (s : GCState) : Nat := s.liveList.length

/-- Method `GCConcreteFactory::Create()`: one allocator request for the object;
wrap the raw pointer in an owning `GCUniquePtr` (collector = the factory),
`PushBack` it on the live list, and return a `GCWeakPtr` attached to the
appended entry (`*mLiveList.GetBack()`).  `newAddr = none` models the
allocator returning no memory; `E_ASSERT_PTR(ptr)` is debug-only. -/
def factoryCreate (s : GCState) (newAddr : Option Nat) : GCState × Option Nat :=
  let s := { s with allocCalls := s.allocCalls + 1 }
  let su := uniqueMk s newAddr
  let s := { su.1 with liveList := su.1.liveList ++ [su.2] }
  weakAttach s su.2

/-- Method `GCConcreteFactory::CleanUp()`: set `mCleaningUp`, clear the live list
(each entry's `GCUniquePtr` destructor resets it; modelled from the spec:
`Containers::List::Clear` destroys the elements in list order), clear the
flag. -/
def factoryCleanUp (s : GCState) : GCState :=
  let s := { s with cleaningUp := true }
  let s := s.liveList.foldl (fun t e => (uniqueReset t e).1) s
  let s := { s with liveList := [] }
  { s with cleaningUp := false }


/-! ### Concrete states used by witnesses and counterexamples -/

/-- Stage 1 of the round-trip scenario: `Create()` on a fresh factory. -/
def c1S1 : GCState × Option Nat := factoryCreate GCState.init (some 100)

/-- Stage 2: copy-construct a second weak handle from the first. -/
def c1S2 : GCState × Option Nat := weakAttach c1S1.1 c1S1.2

/-- Stage 3: reset the first weak handle. -/
def c1S3 : GCState × Option Nat := weakReset c1S2.1 c1S1.2

/-- Stage 4: reset the second (last) weak handle. -/
def c1S4 : GCState × Option Nat := weakReset c1S3.1 c1S2.2

/-- Two owning allocations over the same raw object address 42 (an address
reuse after free), giving two unrelated counter records with equal pointers. -/
def c5S : GCState := (uniqueMk (uniqueMk GCState.init (some 42)).1 (some 42)).1

/-- Stage 1 of the two-expired-records scenario: first owning allocation. -/
def c6S0 : GCState × Option Nat := uniqueMk GCState.init (some 7)

/-- Stage 2: second owning allocation. -/
def c6S1 : GCState × Option Nat := uniqueMk c6S0.1 (some 8)

/-- Stage 3: weak handle attached to record 0. -/
def c6S2 : GCState × Option Nat := weakAttach c6S1.1 (some 0)

/-- Stage 4: weak handle attached to record 1. -/
def c6S3 : GCState × Option Nat := weakAttach c6S2.1 (some 1)

/-- Stage 5: first owning handle reset (record 0 expires). -/
def c6S4 : GCState × Option Nat := uniqueReset c6S3.1 (some 0)

/-- Final stage: both records expired (object pointers null), one weak
observer each. -/
def c6S : GCState := (uniqueReset c6S4.1 (some 1)).1

/-- A `GCThisPtr` record (no collector) with one weak observer. -/
def c2X : GCState := (weakAttach (thisMk GCState.init (some 9)).1 (some 0)).1

/-- A factory-made record with two weak observers. -/
def c2W : GCState :=
  (weakAttach (weakAttach (uniqueMk GCState.init (some 5)).1 (some 0)).1 (some 0)).1

/-- A factory state mid-collection: one live entry over record 0, whose weak
count has just reached zero. -/
def c3S : GCState :=
  { counters := [some ⟨0, some 100, true⟩], liveList := [some 0], cleaningUp := false,
    collectLog := [], destroyLog := [], allocCalls := 1, assertFailed := false }

/-- A factory-made record with one weak observer. -/
def c4S : GCState := (weakAttach (uniqueMk GCState.init (some 7)).1 (some 0)).1

/-- A `GCThisPtr` record with one weak observer. -/
def c10S : GCState := (weakAttach (thisMk GCState.init (some 11)).1 (some 0)).1

/-! ## Helper lemmas -/

@[simp] lemma setCounter_liveList (s : GCState) (r : Nat) (c : Option GCCounter) :
    (setCounter s r c).liveList = s.liveList := rfl

@[simp] lemma setCounter_collectLog (s : GCState) (r : Nat) (c : Option GCCounter) :
    (setCounter s r c).collectLog = s.collectLog := rfl

@[simp] lemma setCounter_destroyLog (s : GCState) (r : Nat) (c : Option GCCounter) :
    (setCounter s r c).destroyLog = s.destroyLog := rfl

@[simp] lemma setCounter_assertFailed (s : GCState) (r : Nat) (c : Option GCCounter) :
    (setCounter s r c).assertFailed = s.assertFailed := rfl

@[simp] lemma setCounter_allocCalls (s : GCState) (r : Nat) (c : Option GCCounter) :
    (setCounter s r c).allocCalls = s.allocCalls := rfl

@[simp] lemma setCounter_cleaningUp (s : GCState) (r : Nat) (c : Option GCCounter) :
    (setCounter s r c).cleaningUp = s.cleaningUp := rfl

@[simp] lemma factoryDestroy_counters (s : GCState) (p : Option Nat) :
    (factoryDestroy s p).counters = s.counters := rfl

@[simp] lemma factoryDestroy_liveList (s : GCState) (p : Option Nat) :
    (factoryDestroy s p).liveList = s.liveList := rfl

@[simp] lemma factoryDestroy_collectLog (s : GCState) (p : Option Nat) :
    (factoryDestroy s p).collectLog = s.collectLog := rfl

@[simp] lemma factoryDestroy_destroyLog (s : GCState) (p : Option Nat) :
    (factoryDestroy s p).destroyLog = s.destroyLog ++ [p] := rfl

@[simp] lemma factoryDestroy_assertFailed (s : GCState) (p : Option Nat) :
    (factoryDestroy s p).assertFailed = s.assertFailed := rfl

lemma counterAt_lt_length (s : GCState) (r : Nat) (c : GCCounter)
    (h : counterAt s r = some c) : r < s.counters.length := by
  by_contra hge
  have hnone : s.counters[r]? = none := List.getElem?_eq_none (Nat.le_of_not_lt hge)
  simp [counterAt, List.get?_eq_getElem?, hnone] at h

lemma counterAt_factoryDestroy (s : GCState) (p : Option Nat) (r : Nat) :
    counterAt (factoryDestroy s p) r = counterAt s r := rfl

lemma counterAt_setCounter_self (s : GCState) (r : Nat) (c : Option GCCounter)
    (h : r < s.counters.length) : counterAt (setCounter s r c) r = c := by
  simp [counterAt, setCounter, List.get?_eq_getElem?, List.getElem?_set, h]

lemma counterAt_setCounter_ne (s : GCState) (r r' : Nat) (c : Option GCCounter)
    (h : r ≠ r') : counterAt (setCounter s r c) r' = counterAt s r' := by
  simp [counterAt, setCounter, List.get?_eq_getElem?, List.getElem?_set, h]

lemma setCounter_setCounter (s : GCState) (r : Nat) (c d : Option GCCounter) :
    setCounter (setCounter s r c) r d = setCounter s r d := by
  simp [setCounter, List.set_set]

lemma uniqueReset_liveList (s : GCState) (h : Option Nat) :
    ((uniqueReset s h).1).liveList = s.liveList := by
  cases h with
  | none => rfl
  | some r =>
    cases hc : counterAt s r with
    | none => simp [uniqueReset, hc]
    | some c => by_cases h0 : c.count = 0 <;> simp [uniqueReset, hc, h0]

lemma uniqueReset_collectLog (s : GCState) (h : Option Nat) :
    ((uniqueReset s h).1).collectLog = s.collectLog := by
  cases h with
  | none => rfl
  | some r =>
    cases hc : counterAt s r with
    | none => simp [uniqueReset, hc]
    | some c => by_cases h0 : c.count = 0 <;> simp [uniqueReset, hc, h0]

lemma uniqueReset_assertFailed (s : GCState) (h : Option Nat) :
    ((uniqueReset s h).1).assertFailed = s.assertFailed := by
  cases h with
  | none => rfl
  | some r =>
    cases hc : counterAt s r with
    | none => simp [uniqueReset, hc]
    | some c => by_cases h0 : c.count = 0 <;> simp [uniqueReset, hc, h0]

lemma uniqueEqRaw_counters_congr (s t : GCState) (hst : s.counters = t.counters)
    (e : Option Nat) (p : Option Nat) : uniqueEqRaw s e p = uniqueEqRaw t e p := by
  cases e with
  | none => rfl
  | some r => simp [uniqueEqRaw, ptrAt, counterAt, hst]

lemma findLiveIdx_counters_congr (s t : GCState) (hst : s.counters = t.counters)
    (p : Nat) (l : List (Option Nat)) : findLiveIdx s p l = findLiveIdx t p l := by
  induction l with
  | nil => rfl
  | cons e rest ih =>
    simp [findLiveIdx, uniqueEqRaw_counters_congr s t hst e (some p), ih]

lemma findLiveIdx_eq_none (s : GCState) (p : Nat) (l : List (Option Nat))
    (h : ∀ e ∈ l, uniqueEqRaw s e (some p) = false) : findLiveIdx s p l = none := by
  induction l with
  | nil => rfl
  | cons e rest ih =>
    have he := h e (by simp)
    simp [findLiveIdx, he, ih (fun e' he' => h e' (by simp [he']))]

lemma findLiveIdx_eq_some (s : GCState) (p : Nat) (l : List (Option Nat)) (i : Nat)
    (hi : i < l.length)
    (hmatch : uniqueEqRaw s (l.getD i none) (some p) = true)
    (huniq : ∀ j, j < l.length → j ≠ i → uniqueEqRaw s (l.getD j none) (some p) = false) :
    findLiveIdx s p l = some i := by
  induction l generalizing i with
  | nil => exact absurd hi (Nat.not_lt_zero i)
  | cons e rest ih =>
    by_cases he : uniqueEqRaw s e (some p) = true
    · have hi0 : i = 0 := by
        by_contra hne
        have := huniq 0 (Nat.succ_pos _) (fun h0 => hne h0.symm)
        simp [List.getD] at this
        simp [this] at he
      subst hi0
      simp [findLiveIdx, he]
    · have hif : uniqueEqRaw s e (some p) = false := by
        cases hb : uniqueEqRaw s e (some p) with
        | true => exact absurd hb he
        | false => rfl
      have hipos : i ≠ 0 := by
        intro h0
        subst h0
        simp [List.getD] at hmatch
        simp [hmatch] at hif
      obtain ⟨i', rfl⟩ := Nat.exists_eq_succ_of_ne_zero hipos
      have hmatch' : uniqueEqRaw s (rest.getD i' none) (some p) = true := by
        simpa [List.getD] using hmatch
      have huniq' : ∀ j, j < rest.length → j ≠ i' →
          uniqueEqRaw s (rest.getD j none) (some p) = false := by
        intro j hj hne
        have := huniq (j + 1) (by simpa using Nat.succ_lt_succ hj)
          (fun hcontra => hne (Nat.succ_injective hcontra))
        simpa [List.getD] using this
      have := ih i' (by simpa using Nat.lt_of_succ_lt_succ hi) hmatch' huniq'
      simp [findLiveIdx, hif, this]

/-! ## Reduction lemmas for the handle operations -/

lemma weakAttach_some (s : GCState) (r : Nat) (c : GCCounter)
    (hc : counterAt s r = some c) :
    weakAttach s (some r) = (setCounter s r (some { c with count := c.count + 1 }), some r) := by
  simp only [weakAttach, hc]

lemma uniqueReset_some (s : GCState) (r : Nat) (c : GCCounter)
    (hc : counterAt s r = some c) :
    uniqueReset s (some r) =
      (if c.count = 0 then (setCounter (factoryDestroy s c.ptr) r none, none)
       else (setCounter (factoryDestroy s c.ptr) r (some { c with ptr := none }), none)) := by
  simp only [uniqueReset, hc]

lemma weakReset_some (s : GCState) (r : Nat) (c : GCCounter)
    (hc : counterAt s r = some c) :
    weakReset s (some r) =
      (if c.count - 1 = 0 then
        match c.ptr with
        | none =>
          (setCounter (setCounter s r (some { c with count := c.count - 1 })) r none, none)
        | some p =>
          if c.pCollector then
            (factoryCollect (setCounter s r (some { c with count := c.count - 1 })) p, none)
          else (setCounter s r (some { c with count := c.count - 1 }), none)
       else (setCounter s r (some { c with count := c.count - 1 }), none)) := by
  simp only [weakReset, hc]

lemma thisDtor_some (s : GCState) (r : Nat) (c : GCCounter)
    (hc : counterAt s r = some c) :
    thisDtor s (some r) =
      (if c.count = 0 then setCounter s r none
       else setCounter s r (some { c with ptr := none })) := by
  simp only [thisDtor, hc]

/-! ## Claims -/

/-- C1: round-trip lifecycle through a concrete `GCConcreteFactory`: `Create()`
returns a weak handle `h1` with count 1 attached to the new object and live
count 1; copying `h1` to `h2` makes them compare equal with count 2 on both;
resetting `h1` leaves `h2` with count 1; resetting `h2` (the last weak handle)
fires `Collect` exactly once, drops the live count from 1 to 0 and, through the
destroyed owning `GCUniquePtr`, fires `Destroy` on the object exactly once
(the counter record ends freed). -/
theorem c1_roundtrip_lifecycle :
    getCount c1S1.1 c1S1.2 = 1 ∧ getPtr c1S1.1 c1S1.2 = some 100 ∧ getLiveCount c1S1.1 = 1
  ∧ weakEq c1S2.1 c1S1.2 c1S2.2 = true ∧ getCount c1S2.1 c1S1.2 = 2 ∧ getCount c1S2.1 c1S2.2 = 2
  ∧ c1S3.2 = none ∧ getCount c1S3.1 c1S2.2 = 1 ∧ getLiveCount c1S3.1 = 1
  ∧ c1S4.2 = none ∧ getLiveCount c1S4.1 = 0
  ∧ c1S4.1.collectLog = [100] ∧ c1S4.1.destroyLog = [some 100]
  ∧ counterAt c1S4.1 0 = none ∧ c1S4.1.assertFailed = false := by decide

/-- C2 counterexample: a weak handle on a collector-less counter record (as a
`GCThisPtr` creates) whose `Reset` brings the count from 1 to 0 with the
object pointer still non-null invokes no `Collect` at all and leaves the
record allocated, against the claim's "it invokes collector.Collect(object)". -/
theorem c2_counterexample :
    getCount c2X (some 0) = 1 ∧ getPtr c2X (some 0) = some 9
  ∧ (weakReset c2X (some 0)).1.collectLog = []
  ∧ counterAt (weakReset c2X (some 0)).1 0 = some ⟨0, some 9, false⟩
  ∧ counterAt (weakReset c2X (some 0)).1 0 ≠ none := by decide

/-- C2 (amended): `GCWeakPtr::Reset` on a handle holding a counter record
decrements the reference count and always detaches the handle; when the count
reaches zero it frees the record if the object pointer is already null, it
invokes `Collect` on the record's collector if the object pointer is non-null
and a collector is present, and it leaves the record allocated and otherwise
untouched if the object pointer is non-null but no collector is present; a
`Reset` that does not bring the count to zero changes nothing but the count. -/
theorem c2_weak_reset_postcondition (s : GCState) (r : Nat) (c : GCCounter)
    (hc : counterAt s r = some c) :
    (weakReset s (some r)).2 = none
  ∧ (c.count - 1 ≠ 0 →
      (weakReset s (some r)).1 = setCounter s r (some { c with count := c.count - 1 }))
  ∧ (c.count - 1 = 0 → c.ptr = none →
      (weakReset s (some r)).1 = setCounter s r none)
  ∧ (∀ q, c.count - 1 = 0 → c.ptr = some q → c.pCollector = true →
      (weakReset s (some r)).1
        = factoryCollect (setCounter s r (some { c with count := c.count - 1 })) q)
  ∧ (∀ q, c.count - 1 = 0 → c.ptr = some q → c.pCollector = false →
      (weakReset s (some r)).1 = setCounter s r (some { c with count := c.count - 1 })) := by
  rw [weakReset_some s r c hc]
  refine ⟨?_, fun h0 => ?_, fun h0 hp => ?_, fun q h0 hp hcol => ?_, fun q h0 hp hcol => ?_⟩
  · split
    · split
      · rfl
      · split <;> rfl
    · rfl
  · simp [h0]
  · simp [h0, hp, setCounter_setCounter]
  · simp [h0, hp, hcol]
  · simp [h0, hp, hcol]

/-- C2 witness: on a record with count 2, `Reset` decrements to 1, changes
nothing else and detaches the handle; the instantiated theorem also covers the
collect branch on a count-1 record. -/
theorem c2_weak_reset_postcondition_witness :
    (weakReset c2W (some 0)).2 = none
  ∧ (weakReset c2W (some 0)).1 = setCounter c2W 0 (some ⟨2 - 1, some 5, true⟩)
  ∧ (weakReset (setCounter c2W 0 (some ⟨1, some 5, true⟩)) (some 0)).1
      = factoryCollect (setCounter (setCounter c2W 0 (some ⟨1, some 5, true⟩)) 0
          (some ⟨1 - 1, some 5, true⟩)) 5 :=
  ⟨(c2_weak_reset_postcondition c2W 0 ⟨2, some 5, true⟩ (by decide)).1,
   (c2_weak_reset_postcondition c2W 0 ⟨2, some 5, true⟩ (by decide)).2.1 (by decide),
   (c2_weak_reset_postcondition (setCounter c2W 0 (some ⟨1, some 5, true⟩)) 0
      ⟨1, some 5, true⟩ (by decide)).2.2.2.1 5 (by decide) rfl rfl⟩

/-- C3: `GCConcreteFactory::Collect(object)` with teardown in progress leaves
the live set unchanged and raises no assertion; with teardown not in progress
and exactly one live-set entry matching the argument it removes that entry
(and only it) without raising; with no matching entry it is a fatal contract
violation (the always-on assertion fires) and the live set is unchanged. -/
theorem c3_collect_contract (s : GCState) (p : Nat) :
    (s.cleaningUp = true →
      (factoryCollect s p).liveList = s.liveList
    ∧ (factoryCollect s p).assertFailed = s.assertFailed)
  ∧ (s.cleaningUp = false →
      (∀ e ∈ s.liveList, uniqueEqRaw s e (some p) = false) →
      (factoryCollect s p).liveList = s.liveList
    ∧ (factoryCollect s p).assertFailed = true)
  ∧ (s.cleaningUp = false → ∀ i, i < s.liveList.length →
      uniqueEqRaw s (s.liveList.getD i none) (some p) = true →
      (∀ j, j < s.liveList.length → j ≠ i →
        uniqueEqRaw s (s.liveList.getD j none) (some p) = false) →
      (factoryCollect s p).liveList = s.liveList.eraseIdx i
    ∧ (factoryCollect s p).assertFailed = s.assertFailed) := by
  obtain ⟨cs, ll, cu, cl, dl, ac, af⟩ := s
  refine ⟨fun hclean => ?_, fun hclean hnone => ?_, fun hclean i hi hmatch huniq => ?_⟩
  · cases hclean
    simp [factoryCollect]
  · cases hclean
    have hfind : findLiveIdx ⟨cs, ll, false, cl ++ [p], dl, ac, af⟩ p ll = none := by
      rw [findLiveIdx_counters_congr ⟨cs, ll, false, cl ++ [p], dl, ac, af⟩
        ⟨cs, ll, false, cl, dl, ac, af⟩ rfl]
      exact findLiveIdx_eq_none _ p ll hnone
    simp [factoryCollect, hfind]
  · cases hclean
    have hfind : findLiveIdx ⟨cs, ll, false, cl ++ [p], dl, ac, af⟩ p ll = some i := by
      rw [findLiveIdx_counters_congr ⟨cs, ll, false, cl ++ [p], dl, ac, af⟩
        ⟨cs, ll, false, cl, dl, ac, af⟩ rfl]
      exact findLiveIdx_eq_some _ p ll i hi hmatch huniq
    constructor
    · simp [factoryCollect, hfind, removeFastAt, uniqueReset_liveList]
    · simp [factoryCollect, hfind, uniqueReset_assertFailed]

/-- C3 witness: on a live set with the single matching entry, `Collect`
removes it without raising; with the teardown flag set it leaves the live set
alone; with no matching entry the assertion fires. -/
theorem c3_collect_contract_witness :
    (factoryCollect c3S 100).liveList = List.eraseIdx c3S.liveList 0
  ∧ (factoryCollect c3S 100).assertFailed = false
  ∧ (factoryCollect { c3S with cleaningUp := true } 100).liveList
      = ({ c3S with cleaningUp := true } : GCState).liveList
  ∧ (factoryCollect c3S 55).assertFailed = true :=
  ⟨((c3_collect_contract c3S 100).2.2 rfl 0 (by decide) (by decide)
      (fun j hj hne => absurd (Nat.lt_one_iff.mp hj) hne)).1,
   ((c3_collect_contract c3S 100).2.2 rfl 0 (by decide) (by decide)
      (fun j hj hne => absurd (Nat.lt_one_iff.mp hj) hne)).2,
   ((c3_collect_contract { c3S with cleaningUp := true } 100).1 rfl).1,
   ((c3_collect_contract c3S 55).2.1 rfl (by decide)).2⟩

/-- C4: for an object with an owning handle over record `r` (count ≥ 1 weak
observers, object pointer non-null), resetting the owning handle invokes
`Destroy` once, nulls only the record's object pointer, and leaves every weak
handle attached with its count unchanged while its dereferenced pointer is now
null; if the count was 1, resetting that last weak handle then frees the
record without invoking any `Collect`. -/
theorem c4_weak_observation_after_owner_release (s : GCState) (r : Nat) (c : GCCounter) (q : Nat)
    (hc : counterAt s r = some c) (hcount : 1 ≤ c.count) (hptr : c.ptr = some q) :
    (uniqueReset s (some r)).2 = none
  ∧ ((uniqueReset s (some r)).1).destroyLog = s.destroyLog ++ [some q]
  ∧ getCount (uniqueReset s (some r)).1 (some r) = c.count
  ∧ getPtr (uniqueReset s (some r)).1 (some r) = none
  ∧ ((uniqueReset s (some r)).1).collectLog = s.collectLog
  ∧ (c.count = 1 →
      counterAt (weakReset (uniqueReset s (some r)).1 (some r)).1 r = none
    ∧ ((weakReset (uniqueReset s (some r)).1 (some r)).1).collectLog = s.collectLog) := by
  have hne0 : ¬ c.count = 0 := by omega
  have hlt := counterAt_lt_length s r c hc
  have hred : uniqueReset s (some r)
      = (setCounter (factoryDestroy s c.ptr) r (some { c with ptr := none }), none) := by
    rw [uniqueReset_some s r c hc]
    simp [hne0]
  have hlt' : r < ((factoryDestroy s c.ptr).counters).length := by
    simpa using hlt
  have hc1 : counterAt (uniqueReset s (some r)).1 r = some { c with ptr := none } := by
    rw [hred]
    exact counterAt_setCounter_self _ r _ hlt'
  refine ⟨by rw [hred], ?_, ?_, ?_, ?_, fun h1 => ?_⟩
  · rw [hred]; simp [hptr]
  · simp [getCount, hc1]
  · simp [getPtr, ptrAt, hc1]
  · rw [hred]; simp
  · have hred2 : weakReset (uniqueReset s (some r)).1 (some r)
        = (setCounter (setCounter (uniqueReset s (some r)).1 r
            (some { c with ptr := none, count := c.count - 1 })) r none, none) := by
      rw [weakReset_some _ r { c with ptr := none } hc1]
      simp [h1]
    constructor
    · rw [hred2]
      rw [setCounter_setCounter]
      refine counterAt_setCounter_self _ r _ ?_
      rw [hred]
      simpa [setCounter] using hlt
    · rw [hred2]
      simp [uniqueReset_collectLog]

/-- C4 witness: concrete record with one weak observer; after the owning
handle's reset the weak handle still reports count 1 but a null pointer, and
its own reset then frees the record with no `Collect` fired. -/
theorem c4_weak_observation_after_owner_release_witness :
    getCount (uniqueReset c4S (some 0)).1 (some 0) = 1
  ∧ getPtr (uniqueReset c4S (some 0)).1 (some 0) = none
  ∧ counterAt (weakReset (uniqueReset c4S (some 0)).1 (some 0)).1 0 = none
  ∧ ((weakReset (uniqueReset c4S (some 0)).1 (some 0)).1).collectLog = [] :=
  ⟨(c4_weak_observation_after_owner_release c4S 0 ⟨1, some 7, true⟩ 7 (by decide)
      (by decide) rfl).2.2.1,
   (c4_weak_observation_after_owner_release c4S 0 ⟨1, some 7, true⟩ 7 (by decide)
      (by decide) rfl).2.2.2.1,
   ((c4_weak_observation_after_owner_release c4S 0 ⟨1, some 7, true⟩ 7 (by decide)
      (by decide) rfl).2.2.2.2.2 rfl).1,
   ((c4_weak_observation_after_owner_release c4S 0 ⟨1, some 7, true⟩ 7 (by decide)
      (by decide) rfl).2.2.2.2.2 rfl).2⟩

/-- C5 counterexample: two owning handles over two unrelated counter records
that hold the same raw object pointer 42 compare not-equal (`some false`), and
two empty handles yield no defined result (`none`, a null-counter dereference)
rather than `false` — both against the claim. -/
theorem c5_counterexample :
    ptrAt c5S 0 = some 42 ∧ ptrAt c5S 1 = some 42
  ∧ uniqueEq c5S (some 0) (some 1) = some false
  ∧ uniqueEq c5S (some 0) (some 1) ≠ some true
  ∧ uniqueEq c5S none none = none
  ∧ uniqueEq c5S none none ≠ some false := by decide

/-- C5 (amended): `GCUniquePtr` equality is record identity, not object-pointer
comparison: a handle equals itself when it holds a record (the two equal
object pointers are then compared), any two handles holding distinct records
compare not-equal even when their records hold the same raw object pointer,
and comparing two empty handles dereferences a null counter pointer (no
defined result). -/
theorem c5_unique_eq_record_identity (s : GCState) (a b : Option Nat) :
    (∀ r, a = some r → b = some r → uniqueEq s a b = some true)
  ∧ (a ≠ b → uniqueEq s a b = some false)
  ∧ (a = none → b = none → uniqueEq s a b = none) := by
  refine ⟨fun r ha hb => ?_, fun hne => ?_, fun ha hb => ?_⟩
  · subst ha; subst hb; simp [uniqueEq]
  · simp [uniqueEq, hne]
  · subst ha; subst hb; simp [uniqueEq]

/-- C5 amended witness at concrete inputs. -/
theorem c5_unique_eq_record_identity_witness :
    uniqueEq c5S (some 0) (some 0) = some true
  ∧ uniqueEq c5S (some 0) (some 1) = some false
  ∧ uniqueEq c5S none none = none :=
  ⟨(c5_unique_eq_record_identity c5S (some 0) (some 0)).1 0 rfl rfl,
   (c5_unique_eq_record_identity c5S (some 0) (some 1)).2.1 (by decide),
   (c5_unique_eq_record_identity c5S none none).2.2 rfl rfl⟩

/-- C6 counterexample: two expired weak handles attached to two different
counter records whose object pointers are both null compare not-equal,
against the claim's "both resolve to a null object pointer" clause. -/
theorem c6_counterexample :
    ptrAt c6S 0 = none ∧ ptrAt c6S 1 = none
  ∧ getCount c6S (some 0) = 1 ∧ getCount c6S (some 1) = 1
  ∧ weakEq c6S (some 0) (some 1) = false
  ∧ weakEq c6S (some 0) (some 1) ≠ true := by decide

/-- C6 (amended): `GCWeakPtr` equality holds iff the two handles reference the
same counter record (including both empty), or exactly one of them has a null
record pointer and the other's record resolves to a null object pointer; two
handles attached to two distinct records compare not-equal even when both
object pointers are null. -/
theorem c6_weak_eq_characterisation (s : GCState) (a b : Option Nat) :
    weakEq s a b = true ↔
      a = b
    ∨ (a = none ∧ ∃ rb, b = some rb ∧ ptrAt s rb = none)
    ∨ (b = none ∧ ∃ ra, a = some ra ∧ ptrAt s ra = none) := by
  unfold weakEq
  by_cases hab : a = b
  · simp [hab]
  · cases a with
    | none =>
      cases b with
      | none => exact absurd rfl hab
      | some rb => simp [hab, Option.isNone_iff_eq_none, Ne.symm hab]
    | some ra =>
      cases b with
      | none => simp [hab, Option.isNone_iff_eq_none]
      | some rb => simp [hab, Ne.symm hab]

/-- C7 counterexample: copy-assigning from source (record 0) onto a destination
already holding record 1 leaves the source holding record 1 — not empty as the
claim states. -/
theorem c7_counterexample :
    (uniqueAssign (some 1) (some 0)).2 = some 1
  ∧ (uniqueAssign (some 1) (some 0)).2 ≠ none := by decide

/-- C7 (amended): copy-construction transfers the record to the destination
and empties the source; copy-assignment swaps the two handles' records, so the
destination receives the source's record but the source receives the
destination's previous record — it ends empty only when the destination was
empty. -/
theorem c7_unique_copy_transfer (src dst : Option Nat) :
    uniqueCopyCtor src = (src, none)
  ∧ (uniqueAssign dst src).1 = src
  ∧ (uniqueAssign dst src).2 = dst :=
  ⟨rfl, rfl, rfl⟩

/-- C8 counterexample: when the allocator returns no memory, `Create()` on a
fresh factory returns a handle resolving to a null object — but it still
appends an entry to the live set, so the live count becomes 1, against the
claim's "rather than registering a live object". -/
theorem c8_counterexample :
    getPtr (factoryCreate GCState.init none).1 (factoryCreate GCState.init none).2 = none
  ∧ getLiveCount (factoryCreate GCState.init none).1 = 1
  ∧ getLiveCount (factoryCreate GCState.init none).1 ≠ 0 := by decide

/-- C8 (amended): when the allocator returns no memory, `Create()` makes
exactly one allocation attempt (no retry) and returns a handle that resolves
to a null object; it nevertheless appends a live-set entry holding the null
object pointer, so `GetLiveCount` increases by one. -/
theorem c8_create_alloc_failure (s : GCState) :
    getPtr (factoryCreate s none).1 (factoryCreate s none).2 = none
  ∧ ((factoryCreate s none).1).allocCalls = s.allocCalls + 1
  ∧ getLiveCount (factoryCreate s none).1 = getLiveCount s + 1 := by
  obtain ⟨cs, ll, cu, cl, dl, ac, af⟩ := s
  have hca : counterAt
      ⟨cs ++ [some ⟨0, none, true⟩], ll ++ [some cs.length], cu, cl, dl, ac + 1, af⟩
      cs.length = some ⟨0, none, true⟩ := by
    simp [counterAt, List.get?_eq_getElem?]
  refine ⟨?_, ?_, ?_⟩
  · simp only [factoryCreate, uniqueMk]
    rw [weakAttach_some _ _ _ hca]
    simp [getPtr, ptrAt, counterAt, setCounter, List.get?_eq_getElem?, List.getElem?_set]
  · simp only [factoryCreate, uniqueMk]
    rw [weakAttach_some _ _ _ hca]
    simp [setCounter]
  · simp only [factoryCreate, uniqueMk]
    rw [weakAttach_some _ _ _ hca]
    simp [getLiveCount, setCounter]

/-- C9: `Reset()` on an empty owning or weak handle is a no-op: the state is
unchanged (nothing freed, no `Collect` or `Destroy` callback) and the handle
stays empty. -/
theorem c9_reset_empty_noop (s : GCState) :
    uniqueReset s none = (s, none) ∧ weakReset s none = (s, none) :=
  ⟨rfl, rfl⟩

/-- C10: on a collector-less counter record (as created by `GCThisPtr`), the
last `GCWeakPtr::Reset` that brings the count from 1 to 0 while the object
pointer is still non-null neither frees the record nor invokes any `Collect`:
the record stays allocated with count 0 and its object pointer intact, and
only the `GCThisPtr` destructor frees it — exactly when it observes count 0,
nulling the object pointer otherwise. -/
theorem c10_thisptr_no_collector (s : GCState) (r : Nat) (c : GCCounter) (q : Nat)
    (hc : counterAt s r = some c) (hcol : c.pCollector = false)
    (hcount : c.count = 1) (hptr : c.ptr = some q) :
    weakReset s (some r) = (setCounter s r (some { c with count := 0 }), none)
  ∧ counterAt (weakReset s (some r)).1 r = some { c with count := 0 }
  ∧ ((weakReset s (some r)).1).collectLog = s.collectLog
  ∧ (∀ t d, counterAt t r = some d → d.count = 0 →
      thisDtor t (some r) = setCounter t r none)
  ∧ (∀ t d, counterAt t r = some d → d.count ≠ 0 →
      thisDtor t (some r) = setCounter t r (some { d with ptr := none })) := by
  have hred : weakReset s (some r) = (setCounter s r (some { c with count := 0 }), none) := by
    rw [weakReset_some s r c hc]
    simp [hcount, hptr, hcol]
  refine ⟨hred, ?_, ?_, fun t d hd h0 => ?_, fun t d hd h0 => ?_⟩
  · rw [hred]
    exact counterAt_setCounter_self s r _ (counterAt_lt_length s r c hc)
  · rw [hred]; simp
  · rw [thisDtor_some t r d hd]; simp [h0]
  · rw [thisDtor_some t r d hd]; simp [h0]

/-- C10 witness: concrete `GCThisPtr` record with one weak observer; the last
weak `Reset` leaves the record allocated with count 0 and pointer intact, and
the `GCThisPtr` destructor then frees it. -/
theorem c10_thisptr_no_collector_witness :
    weakReset c10S (some 0) = (setCounter c10S 0 (some ⟨0, some 11, false⟩), none)
  ∧ thisDtor (setCounter c10S 0 (some ⟨0, some 11, false⟩)) (some 0)
      = setCounter (setCounter c10S 0 (some ⟨0, some 11, false⟩)) 0 none :=
  ⟨(c10_thisptr_no_collector c10S 0 ⟨1, some 11, false⟩ 11 (by decide) rfl rfl rfl).1,
   (c10_thisptr_no_collector c10S 0 ⟨1, some 11, false⟩ 11 (by decide) rfl rfl rfl).2.2.2.1
      (setCounter c10S 0 (some ⟨0, some 11, false⟩)) ⟨0, some 11, false⟩ (by decide) rfl⟩

